import Mathlib

/-!
Shallow embedding of the AetherForge tool pipeline: the cache, HTML
cleaning and fetcher of src/aetherforge/tools/web.py and the tool
dispatch and conversation loop of src/aetherforge/agent.py.

External collaborators are passed in as explicit function parameters:
the HTTP client (requests.get), trafilatura's extractor, the stdlib
html.unescape and urllib quote_plus, the JSON decoder (json.loads), the
wall clock (time.time, frozen for the duration of one call) and the
language-model endpoint. The SQLite table cached_pages is modelled as an
association list keyed by URL, and the meta_json column stores the JSON
object itself rather than its serialized text (json.dumps / json.loads
is a bijection on the objects this program writes). Python exceptions
are modelled with Except; a Lean value of a plain type models a Python
path that returns normally.
-/

namespace AetherForge

/-- JSON values as produced by json.loads. Numbers are modelled as
integers (no claim exercises float payloads) and object keys are unique,
as in a Python dict. -/
inductive Json where
  | null : Json
  | bool (b : Bool) : Json
  | num (n : Int) : Json
  | str (s : String) : Json
  | arr (xs : List Json) : Json
  | obj (kvs : List (String × Json)) : Json

/-- Python exception classes that the modelled code paths can raise. -/
inductive PyErr where
  | attributeError : PyErr
  | typeError : PyErr
  | valueError : PyErr
deriving DecidableEq

/-- Python truthiness of a JSON-shaped value: None, False, 0, "", [] and
an empty dict are falsy, everything else is truthy. -/
def pyTruthy : Json → Bool
  | Json.null => false
  | Json.bool b => b
  | Json.num n => n != 0
  | Json.str s => s != ""
  | Json.arr xs => !xs.isEmpty
  | Json.obj kvs => !kvs.isEmpty

/-- First binding of a key in an association list (a Python dict has at
most one binding per key). -/
def lookupKV {β : Type} (k : String) : List (String × β) → Option β
  | [] => none
  | (k', v) :: rest => if k' = k then some v else lookupKV k rest

/-- Upsert of a key in an association list: replaces the existing
binding for the key, else appends one (SQLite INSERT OR REPLACE on the
primary key / Python dict assignment). -/
def insertKV {β : Type} (k : String) (v : β) : List (String × β) → List (String × β)
  | [] => [(k, v)]
  | (k', v') :: rest => if k' = k then (k, v) :: rest else (k', v') :: insertKV k v rest

/-- Python dict.get(key, default). Raises AttributeError when the
receiver is not a dict, as `args.get(...)` does in _call_tool when
json.loads produced a non-object value. -/
def pyGet (d : Json) (k : String) (default : Json) : Except PyErr Json :=
  match d with
  | Json.obj kvs => Except.ok ((lookupKV k kvs).getD default)
  | _ => Except.error PyErr.attributeError

/-- Python int(x) on a JSON-shaped value: ints pass through, bools
become 0/1, numeric strings parse (ValueError otherwise), any other
value raises TypeError. -/
def pyInt : Json → Except PyErr Int
  | Json.num n => Except.ok n
  | Json.bool b => Except.ok (if b then 1 else 0)
  | Json.str s =>
    match s.trim.toInt? with
    | some n => Except.ok n
    | none => Except.error PyErr.valueError
  | _ => Except.error PyErr.typeError

/-- Python str() of a JSON-shaped scalar, used where requests coerces a
non-string URL argument; containers are rendered only approximately (no
theorem depends on that case). -/
def asUrlArg : Json → String
  | Json.str s => s
  | Json.num n => toString n
  | Json.bool true => "True"
  | Json.bool false => "False"
  | Json.null => "None"
  | Json.arr _ => "[...]"
  | Json.obj _ => "\x7b...\x7d"

/-- One row of the cached_pages table; the url primary-key column is the
key of the association list. cache_put never writes NULL into title or
text, so those columns are plain strings here; meta_json is NULL exactly
when cache_put stored None. -/
structure CacheRow where
  fetched_at : Int
  status : Int
  title : String
  text : String
  meta_json : Option (List (String × Json))

/-- The cached_pages table: at most one row per URL. -/
abbrev Cache := List (String × CacheRow)

/-- The dict returned by fetch_url and cache_get: url, status, title,
text, fetched_at, meta. The meta value is always a dict in this program
(response headers, an error description, or empty). -/
structure FetchResult where
  url : String
  status : Int
  title : String
  text : String
  fetched_at : Int
  meta : List (String × Json)

/-- cache_get: exact-match SELECT on the url key; absent row gives None.
The SELECT returns the key itself in the url column; `row[3] or ""` and
`row[4] or ""` are the identity on the stored strings, and meta is the
parsed meta_json when present, else the empty dict. -/
def cache_get (url : String) (cache : Cache) : Option FetchResult :=
  (lookupKV url cache).map fun row =>
    { url := url
      status := row.status
      title := row.title
      text := row.text
      fetched_at := row.fetched_at
      meta := row.meta_json.getD [] }

/-- Python string slicing s[:n]: the first n characters (code points),
or all of s when it is shorter. -/
def pyTruncate (s : String) (n : Nat) : String :=
  String.mk (s.data.take n)

/-- cache_put: INSERT OR REPLACE of one row. The record supplied by this
program always carries fetched_at, status, title, text and meta, so the
.get defaults are not exercised; int() on the integer fields is the
identity, the title is truncated to its first 512 characters, and
meta_json is NULL when the meta dict is falsy (empty). -/
def cache_put (url : String) (data : FetchResult) (cache : Cache) : Cache :=
  insertKV url
    { fetched_at := data.fetched_at
      status := data.status
      title := pyTruncate data.title 512
      text := data.text
      meta_json := if data.meta.isEmpty then none else some data.meta }
    cache

/-- cache_clear: unlinks the database file, dropping every row. -/
def cache_clear (_ : Cache) : Cache := []

/-- is_fresh(fetched_at, max_age_sec): (time.time() - fetched_at) <
max_age_sec, with the wall clock passed explicitly. -/
def is_fresh (now fetched_at max_age_sec : Int) : Bool :=
  decide (now - fetched_at < max_age_sec)

/-- Whitespace class of Python's regex \s and str.strip on ASCII text. -/
def isPySpace (c : Char) : Bool :=
  c == ' ' || c == '\t' || c == '\n' || c == '\r' || c == '\x0c' || c == '\x0b'

/-- Python str.strip(): drop whitespace from both ends. -/
def pyStrip (s : String) : String :=
  String.mk (((s.data.dropWhile isPySpace).reverse.dropWhile isPySpace).reverse)

/-- Case-insensitive prefix test, as re.IGNORECASE behaves on the ASCII
patterns this program uses. -/
def startsWithCI : List Char → List Char → Bool
  | [], _ => true
  | _ :: _, [] => false
  | p :: ps, c :: cs => (p.toLower == c.toLower) && startsWithCI ps cs

/-- Index of the first '>' in a character list; the span a lazy `.*?>`
consumes under DOTALL. -/
def idxGt : List Char → Option Nat
  | [] => none
  | c :: cs => if c == '>' then some 0 else (idxGt cs).map (· + 1)

/-- Index of the first case-insensitive occurrence of a pattern; the
span a lazy `.*?` consumes before a literal tail. -/
def findCI (pat : List Char) : List Char → Option Nat
  | [] => if startsWithCI pat [] then some 0 else none
  | c :: cs => if startsWithCI pat (c :: cs) then some 0 else (findCI pat cs).map (· + 1)

/-- Length of a match of `<(script|style).*?>.*?</\1>` (IGNORECASE,
DOTALL) for one alternative, given the characters after the leading '<'.
The backreference to the captured tag matches case-insensitively, so it
is the canonical closing tag compared case-insensitively. -/
def tagMatchLen (tag : List Char) (rest : List Char) : Option Nat :=
  if startsWithCI tag rest then
    let afterTag := rest.drop tag.length
    match idxGt afterTag with
    | some i =>
      let afterGt := afterTag.drop (i + 1)
      let close := '<' :: '/' :: (tag ++ ['>'])
      match findCI close afterGt with
      | some j => some (1 + tag.length + (i + 1) + (j + close.length))
      | none => none
    | none => none
  else none

/-- Length of a match of `(?is)<(script|style).*?>.*?</\1>` starting at
the head of the list, trying the alternatives in the regex's order. -/
def scriptStyleMatchLen : List Char → Option Nat
  | '<' :: rest =>
    match tagMatchLen "script".data rest with
    | some n => some n
    | none => tagMatchLen "style".data rest
  | _ => none

/-- re.sub of the script/style pattern with a single space: leftmost
non-overlapping matches are each replaced by " "; positions that do not
start a match are copied. Fuel bounds the recursion and is sufficient
whenever it is at least the list length. -/
def removeScriptStyleGo : Nat → List Char → List Char
  | 0, _ => []
  | _, [] => []
  | f + 1, c :: cs =>
    match scriptStyleMatchLen (c :: cs) with
    | some n => ' ' :: removeScriptStyleGo f ((c :: cs).drop n)
    | none => c :: removeScriptStyleGo f cs

/-- First pass of _strip_tags: re.sub(r"(?is)<(script|style).*?>.*?</\1>", " ", html). -/
def removeScriptStyle (s : String) : String :=
  String.mk (removeScriptStyleGo s.data.length s.data)

/-- re.sub of `(?s)<[^>]+>` with a single space: a '<' whose next '>'
comes after at least one interposed character is replaced together with
that span; otherwise the character is copied. -/
def removeTagsGo : Nat → List Char → List Char
  | 0, _ => []
  | _, [] => []
  | f + 1, c :: cs =>
    if c == '<' then
      match idxGt cs with
      | some 0 => c :: removeTagsGo f cs
      | some (i + 1) => ' ' :: removeTagsGo f (cs.drop (i + 2))
      | none => c :: removeTagsGo f cs
    else c :: removeTagsGo f cs

/-- Second pass of _strip_tags: re.sub(r"(?s)<[^>]+>", " ", cleaned). -/
def removeTags (s : String) : String :=
  String.mk (removeTagsGo s.data.length s.data)

/-- Collapse every maximal run of whitespace into one space:
re.sub(r"\s+", " ", cleaned). The flag records whether the previous
character was part of a run. -/
def collapseWsGo : List Char → Bool → List Char
  | [], _ => []
  | c :: cs, inRun =>
    if isPySpace c then
      if inRun then collapseWsGo cs true else ' ' :: collapseWsGo cs true
    else c :: collapseWsGo cs false

/-- Third pass of _strip_tags: whitespace collapsing. -/
def collapseWs (s : String) : String :=
  String.mk (collapseWsGo s.data false)

/-- _strip_tags: remove script/style blocks, strip the remaining tags,
HTML-entity-decode (the stdlib unescape passed as a parameter), collapse
whitespace, trim. -/
def stripTags (unescape : String → String) (html : String) : String :=
  pyStrip (collapseWs (unescape (removeTags (removeScriptStyle html))))

/-- Match of `<title[^>]*>(.*?)</title>` (IGNORECASE, DOTALL) anchored
at the head of the list, returning the lazy group: the characters
between the first '>' after "<title" and the first "</title>" after
that. -/
def titleMatchAt (cs : List Char) : Option (List Char) :=
  if startsWithCI "<title".data cs then
    let rest := cs.drop 6
    match idxGt rest with
    | some i =>
      let afterGt := rest.drop (i + 1)
      match findCI "</title>".data afterGt with
      | some j => some (afterGt.take j)
      | none => none
    | none => none
  else none

/-- re.search for the title pattern: the leftmost position where the
whole pattern matches wins. -/
def titleSearch : List Char → Option (List Char)
  | [] => none
  | c :: cs =>
    match titleMatchAt (c :: cs) with
    | some g => some g
    | none => titleSearch cs

/-- _extract_title: first title-tag match, entity-decoded and
stripped; empty string when absent. -/
def extractTitle (unescape : String → String) (html : String) : String :=
  match titleSearch html.data with
  | some g => pyStrip (unescape (String.mk g))
  | none => ""

/-- Result dict of clean_html. -/
structure CleanResult where
  title : String
  text : String
deriving DecidableEq

/-- clean_html: title via the regex, body via trafilatura.extract
(passed as a parameter returning none when it yields no text), falling
back to _strip_tags when the extractor's result is empty. -/
def cleanHtml (extract : String → Option String → Option String)
    (unescape : String → String) (html : String) (url : Option String) : CleanResult :=
  let title := extractTitle unescape html
  let text0 := (extract html url).getD ""
  let text := if text0 = "" then stripTags unescape html else text0
  { title := title, text := text }

/-- A completed HTTP response as fetch_url reads it: r.status_code,
r.text and r.headers. -/
structure HttpResp where
  status_code : Int
  text : String
  headers : List (String × String)
deriving DecidableEq

/-- The external collaborators of the pipeline: requests.get (an error
value is a raised transport exception, rendered by str()), trafilatura's
extractor, html.unescape, urllib's quote_plus, and the wall clock
(frozen over one call). -/
structure World where
  http : String → Int → Except String HttpResp
  extract : String → Option String → Option String
  unescape : String → String
  quotePlus : String → String
  now : Int

/-- Output of one fetch_url call, with the resulting cache state and two
observation flags marking exactly where the source executes requests.get
and cache_put. -/
structure FetchOut where
  result : FetchResult
  cache : Cache
  networkCalled : Bool
  cacheWritten : Bool

/-- The try/except block of fetch_url: GET the URL, clean the body,
cache the result only when use_cache holds, the status is 200 and the
text is non-empty; any transport failure is converted into a status-0
record carrying the error description. -/
def fetchNetwork (w : World) (cache : Cache) (url : String) (timeout : Int)
    (use_cache : Bool) : FetchOut :=
  match w.http url timeout with
  | Except.ok r =>
    let cleaned := cleanHtml w.extract w.unescape r.text (some url)
    let data : FetchResult :=
      { url := url
        status := r.status_code
        title := cleaned.title
        text := cleaned.text
        fetched_at := w.now
        meta := [("headers", Json.obj (r.headers.map fun kv => (kv.1, Json.str kv.2)))] }
    if use_cache && (r.status_code == 200) && (data.text != "") then
      { result := data, cache := cache_put url data cache, networkCalled := true, cacheWritten := true }
    else
      { result := data, cache := cache, networkCalled := true, cacheWritten := false }
  | Except.error e =>
    { result :=
        { url := url, status := 0, title := "", text := "", fetched_at := w.now
          meta := [("error", Json.str e)] }
      cache := cache, networkCalled := true, cacheWritten := false }

/-- fetch_url: consult the cache when use_cache and return a fresh row
verbatim without touching the network; otherwise run the network
block. -/
def fetchUrl (w : World) (cache : Cache) (url : String) (timeout : Int)
    (use_cache : Bool) (max_age_sec : Int) : FetchOut :=
  let hit : Option FetchResult :=
    if use_cache then
      match cache_get url cache with
      | some c => if is_fresh w.now c.fetched_at max_age_sec then some c else none
      | none => none
    else none
  match hit with
  | some c => { result := c, cache := cache, networkCalled := false, cacheWritten := false }
  | none => fetchNetwork w cache url timeout use_cache

/-- web_search: two fixed search links built by URL-encoding the query
into templates. quote_plus requires a string argument. -/
def webSearch (quotePlus : String → String) (query : String) : Json :=
  Json.arr
    [ Json.obj
        [ ("title", Json.str "Wikipedia search")
        , ("url", Json.str ("https://en.wikipedia.org/w/index.php?search=" ++ quotePlus query)) ]
    , Json.obj
        [ ("title", Json.str "Hacker News (Algolia) search")
        , ("url", Json.str ("https://hn.algolia.com/?q=" ++ quotePlus query)) ] ]

/-- The literal "\x7b\x7d" substituted for a falsy argument string. -/
def defaultArgsJson : String := "\x7b\x7d"

/-- Output of one _call_tool dispatch: the result dict and the cache
state after any fetch it performed. -/
structure ToolOut where
  result : Json
  cache : Cache

/-- _call_tool: decode the argument string (a decoder failure degrades
to an empty dict), then dispatch on the tool name. args.get raises
AttributeError when the decoder produced a non-object value; the
web_search branch passes the query to quote_plus (TypeError on a
non-string), and the fetch_url branch coerces timeout with int(), calls
fetch_url with caching defaults and projects the result with the text
truncated to 2000 characters. An unknown name yields an error dict. -/
def callTool (jsonLoads : String → Option Json) (w : World) (cache : Cache)
    (name : String) (argsJson : String) : Except PyErr ToolOut :=
  let args : Json :=
    match jsonLoads (if argsJson = "" then defaultArgsJson else argsJson) with
    | some j => j
    | none => Json.obj []
  if name = "web_search" then
    match pyGet args "query" (Json.str "") with
    | Except.error e => Except.error e
    | Except.ok q =>
      match q with
      | Json.str qs => Except.ok { result := Json.obj [("results", webSearch w.quotePlus qs)], cache := cache }
      | _ => Except.error PyErr.typeError
  else if name = "fetch_url" then
    match pyGet args "url" (Json.str "") with
    | Except.error e => Except.error e
    | Except.ok u =>
      match pyGet args "timeout" (Json.num 15) with
      | Except.error e => Except.error e
      | Except.ok t =>
        match pyInt t with
        | Except.error e => Except.error e
        | Except.ok tn =>
          let fo := fetchUrl w cache (asUrlArg u) tn true 86400
          let out := fo.result
          Except.ok
            { result := Json.obj
                [ ("url", Json.str out.url)
                , ("status", Json.num out.status)
                , ("title", Json.str out.title)
                , ("text", Json.str (pyTruncate out.text 2000))
                , ("fetched_at", Json.num out.fetched_at) ]
              cache := fo.cache }
  else
    Except.ok { result := Json.obj [("error", Json.str ("unknown tool " ++ name))], cache := cache }

/-- One tool call requested by the model: call.id, call.function.name
and call.function.arguments (None modelled as none). -/
structure ToolCall where
  id : String
  name : String
  arguments : Option String
deriving DecidableEq

/-- One model response: choice.message.tool_calls (a falsy value is the
empty list) and choice.message.content. -/
structure ModelResponse where
  toolCalls : List ToolCall
  content : Option String

/-- Conversation history entries as chat_with_tools builds them. The
assistant's own messages are not appended by the source; a tool message
records the originating call id, the tool name and the result dict
(whose json.dumps text is in bijection with it). -/
inductive Message where
  | system (content : String) : Message
  | user (content : String) : Message
  | tool (tool_call_id : String) (name : String) (content : Json) : Message

/-- The model client: the chat.completions.create call as a function of
the message history (the fixed model name, tool schemas, tool_choice and
temperature arguments are absorbed into it). -/
abbrev Client := List Message → ModelResponse

/-- The fixed system instruction of chat_with_tools. -/
def sysPrompt : String :=
  "You are AetherForge, a local assistant. Use tools when you need fresh information, then cite sources."

/-- The fixed fallback returned when the round limit is exhausted. -/
def roundLimitMsg : String :=
  "I hit the tool-call limit before finishing. Try a narrower query."

/-- The `url` value of a dispatch result that the loop appends to
sources: present and truthy under `"url" in tool_result and
tool_result["url"]`. -/
def sourceUrlOf (r : Json) : Option String :=
  match r with
  | Json.obj kvs =>
    match lookupKV "url" kvs with
    | some v => if pyTruthy v then some (asUrlArg v) else none
    | none => none
  | _ => none

/-- Output of one chat_with_tools call: the returned pair (or the
propagated exception), the cache state, the number of model calls made,
and the dispatched tool calls as (name, result dict) in handling
order. -/
structure ChatOut where
  outcome : Except PyErr (String × List String)
  modelCalls : Nat
  handled : List (String × Json)
  cache : Cache

/-- The inner for-loop over choice.tool_calls: dispatch each call in
order, append the url of a fetch_url result when present and truthy,
and append one tool message per call. An exception from dispatch
propagates. -/
def handleCalls (jsonLoads : String → Option Json) (w : World) :
    List ToolCall → List Message → List String → Cache → List (String × Json) →
    Except PyErr (List Message × List String × Cache × List (String × Json))
  | [], msgs, srcs, cache, hd => Except.ok (msgs, srcs, cache, hd)
  | c :: rest, msgs, srcs, cache, hd =>
    match callTool jsonLoads w cache c.name (c.arguments.getD defaultArgsJson) with
    | Except.error e => Except.error e
    | Except.ok t =>
      let u := if c.name = "fetch_url" then sourceUrlOf t.result else none
      handleCalls jsonLoads w rest
        (msgs ++ [Message.tool c.id c.name t.result])
        (srcs ++ u.toList) t.cache (hd ++ [(c.name, t.result)])

/-- The round loop of chat_with_tools, with the remaining iteration
count of `for _ in range(max_rounds)` as fuel: ask the model, handle a
tool-call response and continue, or return the trimmed content; when the
fuel runs out, return the fallback with the sources so far. -/
def chatGo (jsonLoads : String → Option Json) (w : World) (client : Client) :
    Nat → List Message → List String → Cache → Nat → List (String × Json) → ChatOut
  | 0, _msgs, srcs, cache, mc, hd =>
    { outcome := Except.ok (roundLimitMsg, srcs), modelCalls := mc, handled := hd, cache := cache }
  | fuel + 1, msgs, srcs, cache, mc, hd =>
    let resp := client msgs
    if resp.toolCalls.isEmpty then
      { outcome := Except.ok (pyStrip (resp.content.getD ""), srcs)
        modelCalls := mc + 1, handled := hd, cache := cache }
    else
      match handleCalls jsonLoads w resp.toolCalls msgs srcs cache hd with
      | Except.error e =>
        { outcome := Except.error e, modelCalls := mc + 1, handled := hd, cache := cache }
      | Except.ok (msgs', srcs', cache', hd') =>
        chatGo jsonLoads w client fuel msgs' srcs' cache' (mc + 1) hd'

/-- chat_with_tools: seed the history with the system instruction and
the user prompt and run up to max_rounds rounds (a non-positive bound
runs none, as range does). -/
def chatWithTools (jsonLoads : String → Option Json) (w : World) (client : Client)
    (userPrompt : String) (maxRounds : Int) (cache : Cache) : ChatOut :=
  chatGo jsonLoads w client maxRounds.toNat
    [Message.system sysPrompt, Message.user userPrompt] [] cache 0 []

/-- The urls appended to sources by a handling trace: those fetch_url
dispatch results carrying a present, truthy url, in handling order. -/
def collectSources (hd : List (String × Json)) : List String :=
  hd.filterMap fun nr => if nr.1 = "fetch_url" then sourceUrlOf nr.2 else none

/-- Sample URL A of the concrete scenarios. -/
def urlA0 : String := "http://a"

/-- Sample URL B of the concrete scenarios. -/
def urlB0 : String := "http://b"

/-- Argument string of a fetch_url call on urlA0. -/
def argA0 : String := "\x7b\"url\": \"http://a\"\x7d"

/-- Argument string of a fetch_url call on urlB0. -/
def argB0 : String := "\x7b\"url\": \"http://b\"\x7d"

/-- Concrete instance of the external JSON decoder that agrees with
Python's json.loads on the finitely many strings the concrete scenarios
use: "3" decodes to the integer 3, the two fetch argument objects and
the empty object decode to their dicts, and every other string used
(such as "x") fails to decode. -/
def jlSample : String → Option Json := fun s =>
  if s = "3" then some (Json.num 3)
  else if s = argA0 then some (Json.obj [("url", Json.str urlA0)])
  else if s = argB0 then some (Json.obj [("url", Json.str urlB0)])
  else if s = defaultArgsJson then some (Json.obj [])
  else none

/-- Concrete world whose HTTP client refuses every connection; unescape
and quote_plus are instantiated with the identity, their behaviour on
entity-free and URL-safe text. -/
def wSample : World :=
  { http := fun _ _ => Except.error "connection refused"
    extract := fun _ _ => none
    unescape := id
    quotePlus := id
    now := 1000 }

/-- The one HTTP response served by w200. -/
def rSample : HttpResp := { status_code := 200, text := "<p>hi</p>", headers := [] }

/-- Concrete world that serves one small page with status 200 and whose
extractor finds the text "hi". -/
def w200 : World :=
  { http := fun _ _ => Except.ok rSample
    extract := fun _ _ => some "hi"
    unescape := id
    quotePlus := id
    now := 1000 }

/-- Page record with a 513-character title. -/
def recBig : FetchResult :=
  { url := "u", status := 200, title := String.mk (List.replicate 513 'a')
    text := "t", fetched_at := 5, meta := [] }

/-- Page record whose cached row is fresh at wSample's clock. -/
def recSample : FetchResult :=
  { url := "u", status := 200, title := "T", text := "hello", fetched_at := 900, meta := [] }

/-- The row cache_get reads back for recSample. -/
def resSample : FetchResult :=
  { url := "u", status := 200, title := "T", text := "hello", fetched_at := 900, meta := [] }

/-- Cache holding recSample under the key "u". -/
def cacheSample : Cache := cache_put "u" recSample []

/-- Model client that always requests one call to an unknown tool. -/
def clientLoop : Client := fun _ =>
  { toolCalls := [{ id := "1", name := "frobnicate", arguments := some "x" }], content := none }

/-- Model client that always requests web_search with the argument
string "3": valid JSON that is not an object. -/
def clientBad : Client := fun _ =>
  { toolCalls := [{ id := "1", name := "web_search", arguments := some "3" }], content := none }

/-- Model client of the two-round scenario: on the initial two-message
history it requests fetch_url on argA then argB; on any longer history
it answers with plain text and no tool calls. -/
def scenarioClient (argA argB answer : String) : Client := fun msgs =>
  if msgs.length == 2 then
    { toolCalls :=
        [ { id := "call_1", name := "fetch_url", arguments := some argA }
        , { id := "call_2", name := "fetch_url", arguments := some argB } ]
      content := none }
  else { toolCalls := [], content := some answer }

/-- Extractor instance that never finds text. -/
def exNone : String → Option String → Option String := fun _ _ => none

/-- Sample malformed HTML input. -/
def htmlSample : String := "<p>hi <b>there</b><div <p>"

/-! Helper lemmas shared by the claim theorems. -/

theorem lookupKV_insertKV {β : Type} (k : String) (v : β) (l : List (String × β)) :
    lookupKV k (insertKV k v l) = some v := by
  induction l with
  | nil => simp [insertKV, lookupKV]
  | cons kv rest ih =>
    obtain ⟨k', v'⟩ := kv
    by_cases h : k' = k
    · simp [insertKV, lookupKV, h]
    · simp [insertKV, lookupKV, h, ih]

theorem cache_get_put (url : String) (rec : FetchResult) (cache : Cache) :
    cache_get url (cache_put url rec cache) =
      some { url := url, status := rec.status, title := pyTruncate rec.title 512
             text := rec.text, fetched_at := rec.fetched_at, meta := rec.meta } := by
  unfold cache_get cache_put
  rw [lookupKV_insertKV]
  cases hm : rec.meta with
  | nil => simp
  | cons x xs => simp

theorem cache_get_url (url : String) (cache : Cache) (r : FetchResult)
    (h : cache_get url cache = some r) : r.url = url := by
  unfold cache_get at h
  cases hl : lookupKV url cache with
  | none => rw [hl] at h; simp at h
  | some row =>
    rw [hl] at h
    simp only [Option.map_some'] at h
    injection h with h
    rw [← h]

theorem fetchNetwork_result_url (w : World) (cache : Cache) (url : String) (t : Int)
    (uc : Bool) : (fetchNetwork w cache url t uc).result.url = url := by
  unfold fetchNetwork
  cases hh : w.http url t with
  | ok r =>
    dsimp only
    split <;> rfl
  | error e => rfl

theorem fetchUrl_result_url (w : World) (cache : Cache) (url : String) (t : Int)
    (uc : Bool) (ma : Int) : (fetchUrl w cache url t uc ma).result.url = url := by
  unfold fetchUrl
  dsimp only
  split
  · next c heq =>
    split at heq
    · split at heq
      · next c' hget =>
        split at heq
        · injection heq with h
          subst h
          exact cache_get_url url cache _ hget
        · exact absurd heq (by simp)
      · exact absurd heq (by simp)
    · exact absurd heq (by simp)
  · exact fetchNetwork_result_url w cache url t uc

theorem fetchUrl_eq_network (w : World) (cache : Cache) (url : String) (t : Int)
    (uc : Bool) (ma : Int)
    (h : (fetchUrl w cache url t uc ma).networkCalled = true) :
    fetchUrl w cache url t uc ma = fetchNetwork w cache url t uc := by
  unfold fetchUrl at h ⊢
  dsimp only at h ⊢
  split at h
  · exact absurd h (by simp)
  · rfl

theorem fetchNetwork_networkCalled (w : World) (cache : Cache) (url : String) (t : Int)
    (uc : Bool) : (fetchNetwork w cache url t uc).networkCalled = true := by
  unfold fetchNetwork
  cases hh : w.http url t with
  | ok r =>
    dsimp only
    split <;> rfl
  | error e => rfl

/-! Claim theorems. -/

/-- C2: for every url, timeout, use_cache and max_age_sec, fetch_url
never raises (it is a total function of the embedded state), and on any
transport-level failure the result has status 0, empty title and text,
fetched_at equal to the current time, and meta carrying the error
description. -/
theorem fetch_url_transport_failure (w : World) (cache : Cache) (url : String)
    (t : Int) (uc : Bool) (ma : Int) (e : String)
    (herr : w.http url t = Except.error e)
    (hnet : (fetchUrl w cache url t uc ma).networkCalled = true) :
    (fetchUrl w cache url t uc ma).result =
      { url := url, status := 0, title := "", text := "", fetched_at := w.now
        meta := [("error", Json.str e)] } := by
  rw [fetchUrl_eq_network w cache url t uc ma hnet]
  unfold fetchNetwork
  rw [herr]

/-- Witness for C2 at a concrete refused connection. -/
theorem fetch_url_transport_failure_witness :
    (fetchUrl wSample [] "u" 15 true 86400).result =
      { url := "u", status := 0, title := "", text := "", fetched_at := 1000
        meta := [("error", Json.str "connection refused")] } :=
  fetch_url_transport_failure wSample [] "u" 15 true 86400 "connection refused" rfl rfl

/-- C3 (amended): cache_put then cache_get on the same URL returns the
record's status, text, fetched_at and meta unchanged, and its title
truncated to the first 512 characters (hence identical whenever the
title is at most 512 characters long). -/
theorem cache_round_trip (url : String) (rec : FetchResult) (cache : Cache) :
    cache_get url (cache_put url rec cache) =
      some { url := url, status := rec.status, title := pyTruncate rec.title 512
             text := rec.text, fetched_at := rec.fetched_at, meta := rec.meta } :=
  cache_get_put url rec cache

/-- Counterexample to C3 as stated: a record whose title has 513
characters does not read back with an identical title. -/
theorem cache_round_trip_cex :
    (cache_get "u" (cache_put "u" recBig [])).map FetchResult.title ≠
      some recBig.title := by
  rw [cache_get_put "u" recBig []]
  simp only [Option.map_some']
  intro h
  injection h with h
  have hlen := congrArg String.length h
  have h512 : (pyTruncate recBig.title 512).length = 512 := by
    show ((List.replicate 513 'a').take 512).length = 512
    rw [List.length_take, List.length_replicate]
    omega
  have h513 : recBig.title.length = 513 := by
    show (List.replicate 513 'a').length = 513
    rw [List.length_replicate]
  rw [h512, h513] at hlen
  omega

/-- C4 (amended): on a completed HTTP response, the cache is written if
and only if use_cache holds, the status is 200 and the extracted text is
non-empty; when it is not written the cache is unchanged, and when it is
written the new state is exactly cache_put of the produced record. -/
theorem fetch_url_cache_write_iff (w : World) (cache : Cache) (url : String) (t : Int)
    (uc : Bool) (ma : Int) (r : HttpResp)
    (hok : w.http url t = Except.ok r)
    (hnet : (fetchUrl w cache url t uc ma).networkCalled = true) :
    ((fetchUrl w cache url t uc ma).cacheWritten = true ↔
      (uc = true ∧ r.status_code = 200 ∧
        (cleanHtml w.extract w.unescape r.text (some url)).text ≠ ""))
    ∧ ((fetchUrl w cache url t uc ma).cacheWritten = false →
        (fetchUrl w cache url t uc ma).cache = cache)
    ∧ ((fetchUrl w cache url t uc ma).cacheWritten = true →
        (fetchUrl w cache url t uc ma).cache
          = cache_put url (fetchUrl w cache url t uc ma).result cache) := by
  rw [fetchUrl_eq_network w cache url t uc ma hnet]
  unfold fetchNetwork
  rw [hok]
  dsimp only
  split
  · next hcond =>
    simp only [Bool.and_eq_true, beq_iff_eq, bne_iff_ne] at hcond
    obtain ⟨⟨h1, h2⟩, h3⟩ := hcond
    refine ⟨?_, ?_, ?_⟩
    · simp [h1, h2, h3]
    · intro h; exact absurd h (by simp)
    · intro _; rfl
  · next hcond =>
    simp only [Bool.and_eq_true, beq_iff_eq, bne_iff_ne, not_and] at hcond
    refine ⟨?_, ?_, ?_⟩
    · constructor
      · intro h; exact absurd h (by simp)
      · rintro ⟨h1, h2, h3⟩
        exact absurd h3 (hcond ⟨h1, h2⟩)
    · intro _; rfl
    · intro h; exact absurd h (by simp)

/-- Counterexample to C4 as stated: with use_cache = false, a completed
200 response with non-empty extracted text writes nothing. -/
theorem fetch_url_cache_write_iff_cex :
    (fetchUrl w200 [] "u" 15 false 86400).cacheWritten = false
    ∧ (fetchUrl w200 [] "u" 15 false 86400).result.status = 200
    ∧ (fetchUrl w200 [] "u" 15 false 86400).result.text = "hi" :=
  ⟨rfl, rfl, rfl⟩

/-- Witness for C4 at a concrete 200 response with caching enabled. -/
theorem fetch_url_cache_write_iff_witness :
    ((fetchUrl w200 [] "u" 15 true 86400).cacheWritten = true ↔
      (true = true ∧ rSample.status_code = 200 ∧
        (cleanHtml w200.extract w200.unescape rSample.text (some "u")).text ≠ ""))
    ∧ ((fetchUrl w200 [] "u" 15 true 86400).cacheWritten = false →
        (fetchUrl w200 [] "u" 15 true 86400).cache = [])
    ∧ ((fetchUrl w200 [] "u" 15 true 86400).cacheWritten = true →
        (fetchUrl w200 [] "u" 15 true 86400).cache
          = cache_put "u" (fetchUrl w200 [] "u" 15 true 86400).result []) :=
  fetch_url_cache_write_iff w200 [] "u" 15 true 86400 rSample rfl rfl

/-- C5: with use_cache, a fresh cached row is returned verbatim with no
network call and no cache change; a missing or stale row leads to a
network call. -/
theorem fetch_url_cache_hit_miss (w : World) (cache : Cache) (url : String) (t ma : Int) :
    (∀ c, cache_get url cache = some c → is_fresh w.now c.fetched_at ma = true →
      fetchUrl w cache url t true ma =
        { result := c, cache := cache, networkCalled := false, cacheWritten := false })
    ∧ (cache_get url cache = none → (fetchUrl w cache url t true ma).networkCalled = true)
    ∧ (∀ c, cache_get url cache = some c → is_fresh w.now c.fetched_at ma = false →
      (fetchUrl w cache url t true ma).networkCalled = true) := by
  refine ⟨?_, ?_, ?_⟩
  · intro c hget hfresh
    unfold fetchUrl
    simp [hget, hfresh]
  · intro hget
    unfold fetchUrl
    simp only [hget]
    exact fetchNetwork_networkCalled w cache url t true
  · intro c hget hfresh
    unfold fetchUrl
    simp only [hget, hfresh]
    simpa using fetchNetwork_networkCalled w cache url t true

/-- Witness for C5: a concrete fresh hit short-circuits the network. -/
theorem fetch_url_cache_hit_miss_witness :
    fetchUrl wSample cacheSample "u" 15 true 86400 =
      { result := resSample, cache := cacheSample
        networkCalled := false, cacheWritten := false } :=
  (fetch_url_cache_hit_miss wSample cacheSample "u" 15 86400).1 resSample rfl rfl

/-- C7: clean_html is total on every input, and whenever the extractor
returns no text its text output equals the raw tag-stripping pass:
script/style blocks removed with their content case-insensitively, the
remaining tags stripped, HTML entities decoded, consecutive whitespace
collapsed to single spaces, and the result trimmed. -/
theorem clean_html_fallback (extract : String → Option String → Option String)
    (unescape : String → String) (html : String) (url : Option String)
    (h : extract html url = none ∨ extract html url = some "") :
    (cleanHtml extract unescape html url).text =
      pyStrip (collapseWs (unescape (removeTags (removeScriptStyle html)))) := by
  unfold cleanHtml stripTags
  rcases h with h | h <;> simp [h]

/-- Witness for C7 on concrete malformed HTML with a failing
extractor. -/
theorem clean_html_fallback_witness :
    (cleanHtml exNone id htmlSample none).text =
      pyStrip (collapseWs (id (removeTags (removeScriptStyle htmlSample)))) :=
  clean_html_fallback exNone id htmlSample none (Or.inl rfl)

/-- C9: the url field of the result of fetch_url equals the input url on
the cache-hit path, the completed-response path and the transport
failure path. -/
theorem fetch_url_preserves_url (w : World) (cache : Cache) (url : String) (t : Int)
    (uc : Bool) (ma : Int) : (fetchUrl w cache url t uc ma).result.url = url :=
  fetchUrl_result_url w cache url t uc ma

/-! Helper lemmas for the conversation loop. -/

theorem callTool_fetch (jl : String → Option Json) (w : World) (cache : Cache)
    (arg A : String) (hjl : jl arg = some (Json.obj [("url", Json.str A)]))
    (hne : arg ≠ "") :
    callTool jl w cache "fetch_url" arg =
      Except.ok
        { result := Json.obj
            [ ("url", Json.str A)
            , ("status", Json.num (fetchUrl w cache A 15 true 86400).result.status)
            , ("title", Json.str (fetchUrl w cache A 15 true 86400).result.title)
            , ("text", Json.str (pyTruncate (fetchUrl w cache A 15 true 86400).result.text 2000))
            , ("fetched_at", Json.num (fetchUrl w cache A 15 true 86400).result.fetched_at) ]
          cache := (fetchUrl w cache A 15 true 86400).cache } := by
  unfold callTool
  rw [if_neg hne, hjl]
  rw [if_neg (by decide : ¬("fetch_url" : String) = "web_search")]
  rw [if_pos rfl]
  simp [pyGet, lookupKV, pyInt, asUrlArg, fetchUrl_result_url]

theorem handleCalls_ok (jl : String → Option Json) (w : World) (calls : List ToolCall)
    (hok : ∀ cache c, c ∈ calls →
      ∃ o, callTool jl w cache c.name (c.arguments.getD defaultArgsJson) = Except.ok o) :
    ∀ msgs srcs cache hd, ∃ out, handleCalls jl w calls msgs srcs cache hd = Except.ok out := by
  induction calls with
  | nil => intro msgs srcs cache hd; exact ⟨(msgs, srcs, cache, hd), rfl⟩
  | cons c rest ih =>
    intro msgs srcs cache hd
    obtain ⟨o, ho⟩ := hok cache c (List.mem_cons_self c rest)
    obtain ⟨out, hout⟩ := ih (fun cache' c' hc' => hok cache' c' (List.mem_cons_of_mem c hc'))
      (msgs ++ [Message.tool c.id c.name o.result])
      (srcs ++ (if c.name = "fetch_url" then sourceUrlOf o.result else none).toList)
      o.cache (hd ++ [(c.name, o.result)])
    refine ⟨out, ?_⟩
    simp only [handleCalls, ho]
    exact hout

theorem chatGo_calls_le (jl : String → Option Json) (w : World) (client : Client) :
    ∀ (fuel : Nat) (msgs : List Message) (srcs : List String) (cache : Cache) (mc : Nat)
      (hd : List (String × Json)),
      (chatGo jl w client fuel msgs srcs cache mc hd).modelCalls ≤ mc + fuel := by
  intro fuel
  induction fuel with
  | zero => intro msgs srcs cache mc hd; simp [chatGo]
  | succ fuel ih =>
    intro msgs srcs cache mc hd
    simp only [chatGo]
    by_cases hE : (client msgs).toolCalls.isEmpty = true
    · rw [if_pos hE]
      dsimp only
      omega
    · rw [if_neg hE]
      cases hh : handleCalls jl w (client msgs).toolCalls msgs srcs cache hd with
      | error e =>
        dsimp only
        omega
      | ok out =>
        obtain ⟨m2, s2, ca2, hd2⟩ := out
        dsimp only
        calc (chatGo jl w client fuel m2 s2 ca2 (mc + 1) hd2).modelCalls
            ≤ (mc + 1) + fuel := ih m2 s2 ca2 (mc + 1) hd2
          _ = mc + (fuel + 1) := by omega

theorem chatGo_exhaust (jl : String → Option Json) (w : World) (client : Client)
    (hc : ∀ msgs, (client msgs).toolCalls ≠ [])
    (hok : ∀ cache msgs c, c ∈ (client msgs).toolCalls →
      ∃ o, callTool jl w cache c.name (c.arguments.getD defaultArgsJson) = Except.ok o) :
    ∀ (fuel : Nat) msgs srcs cache mc hd,
      (chatGo jl w client fuel msgs srcs cache mc hd).modelCalls = mc + fuel
      ∧ ∃ s, (chatGo jl w client fuel msgs srcs cache mc hd).outcome
          = Except.ok (roundLimitMsg, s) := by
  intro fuel
  induction fuel with
  | zero => intro msgs srcs cache mc hd; exact ⟨rfl, srcs, rfl⟩
  | succ fuel ih =>
    intro msgs srcs cache mc hd
    have hempty : (client msgs).toolCalls.isEmpty = false := by
      cases h : (client msgs).toolCalls with
      | nil => exact absurd h (hc msgs)
      | cons a l => rfl
    obtain ⟨⟨msgs', srcs', cache', hd'⟩, hout⟩ :=
      handleCalls_ok jl w (client msgs).toolCalls
        (fun cache' c hc' => hok cache' msgs c hc') msgs srcs cache hd
    have hred : chatGo jl w client (fuel + 1) msgs srcs cache mc hd
        = chatGo jl w client fuel msgs' srcs' cache' (mc + 1) hd' := by
      simp only [chatGo]
      rw [if_neg (by simp [hempty]), hout]
    rw [hred]
    obtain ⟨h1, s, h2⟩ := ih msgs' srcs' cache' (mc + 1) hd'
    exact ⟨by rw [h1]; omega, s, h2⟩

theorem handleCalls_sources (jl : String → Option Json) (w : World) :
    ∀ (calls : List ToolCall) msgs srcs cache hd m s ca h,
      handleCalls jl w calls msgs srcs cache hd = Except.ok (m, s, ca, h) →
      srcs = collectSources hd → s = collectSources h := by
  intro calls
  induction calls with
  | nil =>
    intro msgs srcs cache hd m s ca h heq hinv
    simp only [handleCalls] at heq
    cases heq
    exact hinv
  | cons c rest ih =>
    intro msgs srcs cache hd m s ca h heq hinv
    simp only [handleCalls] at heq
    cases hct : callTool jl w cache c.name (c.arguments.getD defaultArgsJson) with
    | error e => rw [hct] at heq; simp at heq
    | ok t =>
      rw [hct] at heq
      dsimp only at heq
      refine ih _ _ _ _ _ _ _ _ heq ?_
      rw [hinv]
      unfold collectSources
      rw [List.filterMap_append]
      congr 1

theorem chatGo_sources (jl : String → Option Json) (w : World) (client : Client) :
    ∀ (fuel : Nat) msgs srcs cache mc hd,
      srcs = collectSources hd →
      ∀ a s, (chatGo jl w client fuel msgs srcs cache mc hd).outcome = Except.ok (a, s) →
        s = collectSources (chatGo jl w client fuel msgs srcs cache mc hd).handled := by
  intro fuel
  induction fuel with
  | zero =>
    intro msgs srcs cache mc hd hinv a s hout
    simp only [chatGo] at hout ⊢
    cases hout
    exact hinv
  | succ fuel ih =>
    intro msgs srcs cache mc hd hinv a s hout
    simp only [chatGo] at hout ⊢
    by_cases hE : (client msgs).toolCalls.isEmpty = true
    · rw [if_pos hE] at hout ⊢
      cases hout
      exact hinv
    · rw [if_neg hE] at hout ⊢
      cases hh : handleCalls jl w (client msgs).toolCalls msgs srcs cache hd with
      | error e =>
        rw [hh] at hout
        simp at hout
      | ok out =>
        obtain ⟨m2, s2, ca2, hd2⟩ := out
        rw [hh] at hout
        dsimp only at hout ⊢
        exact ih m2 s2 ca2 (mc + 1) hd2
          (handleCalls_sources jl w _ _ _ _ _ _ _ _ _ hh hinv) a s hout

theorem chat_scenario (jl : String → Option Json) (w : World)
    (A B argA argB answer prompt : String) (cache : Cache)
    (hA : jl argA = some (Json.obj [("url", Json.str A)]))
    (hB : jl argB = some (Json.obj [("url", Json.str B)]))
    (hargA : argA ≠ "") (hargB : argB ≠ "") (hAne : A ≠ "") (hBne : B ≠ "") :
    (chatWithTools jl w (scenarioClient argA argB answer) prompt 3 cache).outcome
      = Except.ok (pyStrip answer, [A, B]) := by
  have hct1 := callTool_fetch jl w cache argA A hA hargA
  have hct2 := callTool_fetch jl w (fetchUrl w cache A 15 true 86400).cache argB B hB hargB
  have hA' : (A != "") = true := by simp [hAne]
  have hB' : (B != "") = true := by simp [hBne]
  unfold chatWithTools
  simp only [chatGo, scenarioClient, handleCalls, hct1, hct2, sourceUrlOf, lookupKV,
    pyTruthy, asUrlArg, hA', hB', Option.getD, Option.toList, List.length_append,
    List.length_cons, List.length_nil]
  simp [hAne, hBne]

/-- C1 (amended): the loop makes at most maxRounds model calls for every
client; and for every client that requests at least one tool call in
every round and whose requested calls all dispatch without raising,
maxRounds = 3 makes exactly 3 model calls and returns the fixed fallback
message paired with the sources accumulated so far. -/
theorem chat_with_tools_round_limit (jl : String → Option Json) (w : World)
    (prompt : String) (cache : Cache) :
    (∀ (client : Client) (maxRounds : Int),
      (chatWithTools jl w client prompt maxRounds cache).modelCalls ≤ maxRounds.toNat)
    ∧ (∀ client : Client, (∀ msgs, (client msgs).toolCalls ≠ []) →
        (∀ cache' msgs c, c ∈ (client msgs).toolCalls →
          ∃ o, callTool jl w cache' c.name (c.arguments.getD defaultArgsJson) = Except.ok o) →
        (chatWithTools jl w client prompt 3 cache).modelCalls = 3
        ∧ ∃ srcs, (chatWithTools jl w client prompt 3 cache).outcome
            = Except.ok (roundLimitMsg, srcs)) := by
  constructor
  · intro client maxRounds
    have h := chatGo_calls_le jl w client maxRounds.toNat
      [Message.system sysPrompt, Message.user prompt] [] cache 0 []
    simpa [chatWithTools] using h
  · intro client hc hok
    have h := chatGo_exhaust jl w client hc (fun cache' msgs c hm => hok cache' msgs c hm)
      3 [Message.system sysPrompt, Message.user prompt] [] cache 0 []
    exact ⟨h.1, h.2⟩

/-- Counterexample to C1 as stated: a client that requests one tool call
in every round, with the argument string "3", makes chat_with_tools
propagate an AttributeError instead of returning the fallback. -/
theorem chat_with_tools_round_limit_cex :
    (chatWithTools jlSample wSample clientBad "q" 3 []).outcome
      = Except.error PyErr.attributeError := rfl

/-- Witness for C1 with a concrete always-tool-calling client whose
dispatches all succeed. -/
theorem chat_with_tools_round_limit_witness :
    (chatWithTools jlSample wSample clientLoop "hi" 3 []).modelCalls = 3
    ∧ ∃ srcs, (chatWithTools jlSample wSample clientLoop "hi" 3 []).outcome
        = Except.ok (roundLimitMsg, srcs) :=
  (chat_with_tools_round_limit jlSample wSample "hi" []).2 clientLoop
    (fun _ => by simp [clientLoop])
    (fun cache' msgs c hm => by
      simp only [clientLoop, List.mem_singleton] at hm
      subst hm
      exact ⟨_, rfl⟩)

/-- C6: _call_tool on the tool name web_search with the argument string
"3" (valid JSON that is not an object) raises AttributeError, against
the claim that it always returns an object and never raises. -/
theorem call_tool_nonobject_args_raises :
    callTool jlSample wSample [] "web_search" "3" = Except.error PyErr.attributeError := rfl

/-- C8: whenever chat_with_tools returns, the sources are exactly the
urls carried by the fetch_url dispatch results that were present and
truthy, in handling order with duplicates preserved; and in the
two-round scenario that fetches A then B and then answers in plain text,
it returns the trimmed answer with sources [A, B]. -/
theorem chat_sources_accumulation :
    (∀ (jl : String → Option Json) (w : World) (client : Client) (prompt : String)
        (maxRounds : Int) (cache : Cache) (a : String) (s : List String),
      (chatWithTools jl w client prompt maxRounds cache).outcome = Except.ok (a, s) →
      s = collectSources (chatWithTools jl w client prompt maxRounds cache).handled)
    ∧ (∀ (jl : String → Option Json) (w : World) (A B argA argB answer prompt : String)
        (cache : Cache),
      jl argA = some (Json.obj [("url", Json.str A)]) →
      jl argB = some (Json.obj [("url", Json.str B)]) →
      argA ≠ "" → argB ≠ "" → A ≠ "" → B ≠ "" →
      (chatWithTools jl w (scenarioClient argA argB answer) prompt 3 cache).outcome
        = Except.ok (pyStrip answer, [A, B])) := by
  constructor
  · intro jl w client prompt maxRounds cache a s hout
    exact chatGo_sources jl w client maxRounds.toNat _ [] cache 0 [] rfl a s hout
  · intro jl w A B argA argB answer prompt cache hA hB hargA hargB hAne hBne
    exact chat_scenario jl w A B argA argB answer prompt cache hA hB hargA hargB hAne hBne

/-- Witness for C8 at the concrete two-round scenario. -/
theorem chat_sources_accumulation_witness :
    (chatWithTools jlSample wSample (scenarioClient argA0 argB0 "  done  ") "q" 3 []).outcome
      = Except.ok (pyStrip "  done  ", [urlA0, urlB0]) :=
  chat_sources_accumulation.2 jlSample wSample urlA0 urlB0 argA0 argB0 "  done  " "q" []
    rfl rfl (by decide) (by decide) (by decide) (by decide)

/-- C10: a non-positive maxRounds returns the fallback message and empty
sources without any model call or tool dispatch and with the cache
untouched. -/
theorem chat_nonpositive_rounds (jl : String → Option Json) (w : World) (client : Client)
    (prompt : String) (cache : Cache) (mr : Int) (h : mr ≤ 0) :
    chatWithTools jl w client prompt mr cache =
      { outcome := Except.ok (roundLimitMsg, []), modelCalls := 0
        handled := [], cache := cache } := by
  unfold chatWithTools
  rw [Int.toNat_of_nonpos h]
  rfl

/-- Witness for C10 at maxRounds = 0. -/
theorem chat_nonpositive_rounds_witness :
    chatWithTools jlSample wSample clientBad "q" 0 [] =
      { outcome := Except.ok (roundLimitMsg, []), modelCalls := 0
        handled := [], cache := [] } :=
  chat_nonpositive_rounds jlSample wSample clientBad "q" [] 0 (by decide)

end AetherForge
